import Mathlib

/-
Shallow embedding of the sleep-metrics core of the `sleephabits` repository.

Sources embedded here:
  * src/models/schemas.py  — `ensure_sleep_window`, `compute_sleep_metrics`,
    `SleepRecordBase` field/model validators, `SubjectBase.v_name`,
    `SubjectBase.v_gender`, `NAME_RE`
  * src/routers/sleep_records.py — `_calculate_metrics`
  * src/routers/subjects.py — `_normalize_subject` (gender part)
  * src/routers/reports.py — the `gender_group` SQL expression

Modelling conventions:
  * Python floats are modelled as exact rationals (ℚ); Python `round(x, 2)`
    is modelled as round-half-to-even at two decimal places over ℚ.
  * `datetime.time` values are modelled at second granularity (microsecond 0);
    a `datetime` is an integer count of seconds, a `date` an integer count of
    days (one calendar day = 86400 s; no DST in the naive-datetime model).
    With whole-second inputs, Python's
    `int((wake - bed).total_seconds() / 60)` agrees with integer truncation
    of the exact quotient, which is modelled with `Int.tdiv`.
  * Python strings are modelled as Lean strings; `str.split()` whitespace and
    `str.upper()` case mapping are modelled over ASCII.
-/

namespace SleepHabits

/-! ### Rounding model: Python `round(x, 2)` as round-half-to-even over ℚ -/

/-- Round a rational to the nearest integer, ties to the even integer
(the rounding of Python's `round`, idealised over exact rationals). -/
def round_half_even (q : ℚ) : ℤ :=
  if q - ⌊q⌋ < 1/2 then ⌊q⌋
  else if 1/2 < q - ⌊q⌋ then ⌊q⌋ + 1
  else if ⌊q⌋ % 2 = 0 then ⌊q⌋ else ⌊q⌋ + 1

/-- Python `round(x, 2)` over exact rationals. -/
def round2 (q : ℚ) : ℚ := (round_half_even (q * 100) : ℚ) / 100

/-! ### Time model -/

/-- A Python `datetime.time` value at second granularity. -/
structure Time where
  hour : Fin 24
  minute : Fin 60
  second : Fin 60
deriving DecidableEq

/-- Seconds since midnight; `datetime.combine(d, t)` is `d * 86400 + t.toSec`. -/
def Time.toSec (t : Time) : ℤ := t.hour.val * 3600 + t.minute.val * 60 + t.second.val

/-! ### src/models/schemas.py : ensure_sleep_window -/

/-- `ensure_sleep_window(record_date, bedtime, wakeup_time)` from
src/models/schemas.py: combine the record date with each time of day and
roll the wakeup timestamp to the next day when it is not strictly after
the bed timestamp.  Timestamps are seconds; the date is a day count. -/
def ensure_sleep_window (record_date : ℤ) (bedtime wakeup_time : Time) : ℤ × ℤ :=
  let bed_dt := record_date * 86400 + bedtime.toSec
  let wake_dt := record_date * 86400 + wakeup_time.toSec
  if wake_dt ≤ bed_dt then (bed_dt, wake_dt + 86400) else (bed_dt, wake_dt)

/-! ### src/models/schemas.py : compute_sleep_metrics -/

/-- `compute_sleep_metrics(record_date, bedtime, wakeup_time, awakenings)` from
src/models/schemas.py.  `int((wake_dt - bed_dt).total_seconds() / 60)` is the
truncated quotient `Int.tdiv`; `awakenings = max(0, awakenings or 0)` is
`max 0 awakenings` over ℤ; the result is `(duration_hours, efficiency)`. -/
def compute_sleep_metrics (record_date : ℤ) (bedtime wakeup_time : Time)
    (awakenings : ℤ) : ℚ × ℚ :=
  let w := ensure_sleep_window record_date bedtime wakeup_time
  let time_in_bed_min : ℤ := Int.tdiv (w.2 - w.1) 60
  let duration_hours : ℚ :=
    if time_in_bed_min = 0 then 0 else round2 ((time_in_bed_min : ℚ) / 60)
  let waso : ℤ := (max 0 awakenings) * 5
  let efficiency : ℚ :=
    if time_in_bed_min = 0 then 0
    else round2 (max 0 (min 100
      (100 * ((time_in_bed_min : ℚ) - (waso : ℚ)) / (time_in_bed_min : ℚ))))
  (duration_hours, efficiency)

/-! ### Spec-side definitions (§4.1–§4.2) for the refinement claim C1

These two definitions follow the WORDS of the specification, to be compared
with `compute_sleep_metrics` above (which is translated from the source). -/

/-- The spec's `clamp(x, lo, hi)`. -/
def clamp (x lo hi : ℚ) : ℚ := max lo (min hi x)

/-- §4.2 as written: `timeInBedMinutes = round(wakeTimestamp - bedTimestamp
in minutes)` (round to nearest), `durationHours = round(timeInBedMinutes/60, 2)`
or `0.0` if `timeInBedMinutes == 0`, `waso = awakenings * 5` with no latency
term, `efficiencyPercent = round(clamp(100*(timeInBedMinutes - waso)
/ timeInBedMinutes, 0, 100), 2)` or `0` if `timeInBedMinutes == 0`. -/
def spec_sleep_metrics_rounded (record_date : ℤ) (bedtime wakeup_time : Time)
    (awakenings : ℕ) : ℚ × ℚ :=
  let w := ensure_sleep_window record_date bedtime wakeup_time
  let timeInBedMinutes : ℤ := round_half_even (((w.2 - w.1 : ℤ) : ℚ) / 60)
  let durationHours : ℚ :=
    if timeInBedMinutes = 0 then 0 else round2 ((timeInBedMinutes : ℚ) / 60)
  let waso : ℤ := (awakenings : ℤ) * 5
  let efficiencyPercent : ℚ :=
    if timeInBedMinutes = 0 then 0
    else round2 (clamp
      (100 * ((timeInBedMinutes : ℚ) - (waso : ℚ)) / (timeInBedMinutes : ℚ)) 0 100)
  (durationHours, efficiencyPercent)

/-- §4.2 amended: identical to `spec_sleep_metrics_rounded` except that
`timeInBedMinutes` is the window length in minutes truncated (floored)
to an integer rather than rounded to the nearest integer. -/
def spec_sleep_metrics_truncated (record_date : ℤ) (bedtime wakeup_time : Time)
    (awakenings : ℕ) : ℚ × ℚ :=
  let w := ensure_sleep_window record_date bedtime wakeup_time
  let timeInBedMinutes : ℤ := ⌊((w.2 - w.1 : ℤ) : ℚ) / 60⌋
  let durationHours : ℚ :=
    if timeInBedMinutes = 0 then 0 else round2 ((timeInBedMinutes : ℚ) / 60)
  let waso : ℤ := (awakenings : ℤ) * 5
  let efficiencyPercent : ℚ :=
    if timeInBedMinutes = 0 then 0
    else round2 (clamp
      (100 * ((timeInBedMinutes : ℚ) - (waso : ℚ)) / (timeInBedMinutes : ℚ)) 0 100)
  (durationHours, efficiencyPercent)

/-! ### src/models/schemas.py : SleepRecordBase validation -/

/-- One distinct error per violated rule (the Spanish `ValueError` messages of
src/models/schemas.py / the `HTTPException` details of the routers). -/
inductive ValidationError
  | futureDate
  | awakeningsRange
  | durationRange
  | efficiencyRange
deriving DecidableEq

/-- The raw `SleepRecordBase` payload (src/models/schemas.py lines 137-146).
`attachment_url` and `notes` play no role in validation and are omitted. -/
structure SleepRecordPayload where
  subject_id : ℤ
  record_date : ℤ
  bedtime : Time
  wakeup_time : Time
  sleep_duration : Option ℚ
  sleep_efficiency : Option ℚ
  awakenings : ℤ
deriving DecidableEq

/-- A successfully validated sleep record: after
`compute_and_validate_metrics`, `sleep_duration` and `sleep_efficiency`
are set (no longer optional). -/
structure SleepRecord where
  subject_id : ℤ
  record_date : ℤ
  bedtime : Time
  wakeup_time : Time
  sleep_duration : ℚ
  sleep_efficiency : ℚ
  awakenings : ℤ
deriving DecidableEq

/-- `SleepRecordBase.v_date`: reject a record date strictly after today. -/
def v_date (today : ℤ) (v : ℤ) : Except ValidationError ℤ :=
  if today < v then .error .futureDate else .ok v

/-- `SleepRecordBase.v_awakenings` together with `Field(0, ge=0, le=20)`:
the awakenings count must lie in [0, 20]. -/
def v_awakenings (v : ℤ) : Except ValidationError ℤ :=
  if 0 ≤ v ∧ v ≤ 20 then .ok v else .error .awakeningsRange

/-- `SleepRecordBase.v_duration`: a supplied sleep duration must lie in
[2, 14] hours (returned unrounded in this variant). -/
def v_duration : Option ℚ → Except ValidationError (Option ℚ)
  | none => .ok none
  | some v => if 2 ≤ v ∧ v ≤ 14 then .ok (some v) else .error .durationRange

/-- `SleepRecordBase.v_efficiency`: a supplied sleep efficiency must lie in
[0, 100] and is rounded to 2 decimals. -/
def v_efficiency : Option ℚ → Except ValidationError (Option ℚ)
  | none => .ok none
  | some v => if 0 ≤ v ∧ v ≤ 100 then .ok (some (round2 v)) else .error .efficiencyRange

/-- Pydantic validation of `SleepRecordBase`: the field validators run in
field-declaration order (`record_date`, `sleep_duration`, `sleep_efficiency`,
`awakenings`), then the model validator `compute_and_validate_metrics`
recomputes the metrics, bounds-checks them, prefers a supplied efficiency
when present, and stores the rounded values. -/
def validateSleepRecord (today : ℤ) (p : SleepRecordPayload) :
    Except ValidationError SleepRecord :=
  match v_date today p.record_date with
  | .error e => .error e
  | .ok rd =>
  match v_duration p.sleep_duration with
  | .error e => .error e
  | .ok _sd =>
  match v_efficiency p.sleep_efficiency with
  | .error e => .error e
  | .ok se =>
  match v_awakenings p.awakenings with
  | .error e => .error e
  | .ok aw =>
  let m := compute_sleep_metrics rd p.bedtime p.wakeup_time aw
  if 2 ≤ m.1 ∧ m.1 ≤ 14 then
    let eff_value := se.getD m.2
    if 0 ≤ eff_value ∧ eff_value ≤ 100 then
      .ok { subject_id := p.subject_id, record_date := rd, bedtime := p.bedtime,
            wakeup_time := p.wakeup_time, sleep_duration := round2 m.1,
            sleep_efficiency := round2 eff_value, awakenings := aw }
    else .error .efficiencyRange
  else .error .durationRange

/-! ### src/routers/sleep_records.py : _calculate_metrics -/

/-- The two `HTTPException` branches of `_calculate_metrics`. -/
inductive MetricsError
  | durationRange
  | efficiencyRange
deriving DecidableEq

/-- `_calculate_metrics(record_date, bedtime, wakeup_time, awakenings)` from
src/routers/sleep_records.py: resolve the window, recompute the metrics,
reject out-of-range values, return the window plus rounded metrics. -/
def calculate_metrics (record_date : ℤ) (bedtime wakeup_time : Time)
    (awakenings : ℤ) : Except MetricsError (ℤ × ℤ × ℚ × ℚ) :=
  let w := ensure_sleep_window record_date bedtime wakeup_time
  let m := compute_sleep_metrics record_date bedtime wakeup_time awakenings
  if 2 ≤ m.1 ∧ m.1 ≤ 14 then
    if 0 ≤ m.2 ∧ m.2 ≤ 100 then .ok (w.1, w.2, round2 m.1, round2 m.2)
    else .error .efficiencyRange
  else .error .durationRange

/-- Whether `_calculate_metrics` raised its efficiency-out-of-range error. -/
def raised_efficiency_error (r : Except MetricsError (ℤ × ℤ × ℚ × ℚ)) : Bool :=
  match r with
  | .error .efficiencyRange => true
  | _ => false

/-! ### src/models/schemas.py : SubjectBase.v_name and NAME_RE -/

/-- Python `str.split()` / `str.strip()` whitespace, modelled over ASCII. -/
def isPyWS (c : Char) : Bool :=
  c = ' ' || c = '\t' || c = '\n' || c = '\r' || c = '\x0b' || c = '\x0c'

/-- Python `str.strip()`: drop whitespace from both ends. -/
def pyStrip (l : List Char) : List Char :=
  ((l.dropWhile isPyWS).reverse.dropWhile isPyWS).reverse

/-- Python `str.split()` (no separator): split on whitespace runs, dropping
empty pieces.  The accumulator holds the current word reversed. -/
def pySplit : List Char → List Char → List (List Char)
  | [], acc => if acc.isEmpty then [] else [acc.reverse]
  | c :: cs, acc =>
    if isPyWS c then
      if acc.isEmpty then pySplit cs [] else acc.reverse :: pySplit cs []
    else pySplit cs (c :: acc)

/-- `" ".join((v or "").strip().split())` from `SubjectBase.v_name`:
collapse whitespace runs to single spaces and trim the ends. -/
def cleaned_name (s : String) : String :=
  String.mk (List.intercalate [' '] (pySplit (pyStrip s.data) []))

/-- The character class of `NAME_RE`
(`^[A-Za-zÁÉÍÓÚÑáéíóúñ' -]{2,50}$`, src/models/schemas.py line 8). -/
def nameChar (c : Char) : Bool :=
  (decide ('A' ≤ c) && decide (c ≤ 'Z')) ||
  (decide ('a' ≤ c) && decide (c ≤ 'z')) ||
  (['Á', 'É', 'Í', 'Ó', 'Ú', 'Ñ', 'á', 'é', 'í', 'ó', 'ú', 'ñ'].contains c) ||
  c = Char.ofNat 39 || c = ' ' || c = '-'

/-- `NAME_RE.match(cleaned)`: the anchored pattern matches exactly the strings
of 2 to 50 characters drawn from the class.  (`$` may also match before a
trailing newline in Python, but a cleaned string never ends in a newline.) -/
def name_re_match (l : List Char) : Bool :=
  decide (2 ≤ l.length) && decide (l.length ≤ 50) && l.all nameChar

/-- `SubjectBase.v_name`: clean, then accept exactly the cleaned strings
matched by `NAME_RE`, returning the cleaned string. -/
def v_name (s : String) : Option String :=
  let cleaned := cleaned_name s
  if name_re_match cleaned.data then some cleaned else none

/-! ### Gender validation and the reporting fallbacks -/

/-- Python `str.upper()`, modelled on ASCII letters. -/
def pyUpperChar (c : Char) : Char :=
  if 'a' ≤ c ∧ c ≤ 'z' then Char.ofNat (c.toNat - 32) else c

/-- `(v or "").strip().upper()` from `SubjectBase.v_gender`. -/
def strip_upper (s : String) : String :=
  String.mk ((pyStrip s.data).map pyUpperChar)

/-- The closed gender set `{"M", "F", "O"}`. -/
def genderSet : List String := ["M", "F", "O"]

/-- `SubjectBase.v_gender`: trim and upper-case; accept exactly `M`, `F`, `O`,
rejecting anything else with a validation error (modelled as `none`). -/
def v_gender (s : String) : Option String :=
  let cleaned := strip_upper s
  if cleaned ∈ genderSet then some cleaned else none

/-- The gender part of `_normalize_subject` (src/routers/subjects.py):
trim and upper-case, silently mapping any non-matching value to `"O"`. -/
def normalize_subject_gender (s : String) : String :=
  let gender := strip_upper s
  if gender ∈ genderSet then gender else "O"

/-- SQL `TRIM` (spaces only, both ends), for the reports query. -/
def sqlTrim (l : List Char) : List Char :=
  ((l.dropWhile (fun c => c = ' ')).reverse.dropWhile (fun c => c = ' ')).reverse

/-- The `gender_group` expression of src/routers/reports.py:
`CASE WHEN upper(trim(gender)) IN ('M','F','O') THEN upper(trim(gender))
ELSE 'O' END`, with `upper` modelled on ASCII. -/
def gender_group (s : String) : String :=
  let cleaned := String.mk ((sqlTrim s.data).map pyUpperChar)
  if cleaned ∈ genderSet then cleaned else "O"

/-! ### Lemmas about the rounding model -/

theorem floor_le_round_half_even (q : ℚ) : ⌊q⌋ ≤ round_half_even q := by
  unfold round_half_even
  split_ifs <;> omega

theorem round_half_even_le_floor_add_one (q : ℚ) : round_half_even q ≤ ⌊q⌋ + 1 := by
  unfold round_half_even
  split_ifs <;> omega

theorem round_half_even_intCast (n : ℤ) : round_half_even (n : ℚ) = n := by
  unfold round_half_even
  rw [Int.floor_intCast, sub_self]
  norm_num

theorem round_half_even_mono {p q : ℚ} (h : p ≤ q) :
    round_half_even p ≤ round_half_even q := by
  have hf : ⌊p⌋ ≤ ⌊q⌋ := Int.floor_mono h
  rcases eq_or_lt_of_le hf with heq | hlt
  · have hfr : p - ⌊p⌋ ≤ q - ⌊q⌋ := by
      rw [← heq]
      push_cast
      linarith
    unfold round_half_even
    split_ifs <;> first
      | omega
      | (exfalso; linarith)
  · calc round_half_even p ≤ ⌊p⌋ + 1 := round_half_even_le_floor_add_one p
      _ ≤ ⌊q⌋ := by omega
      _ ≤ round_half_even q := floor_le_round_half_even q

theorem le_round_half_even {q : ℚ} {n : ℤ} (h : (n : ℚ) ≤ q) :
    n ≤ round_half_even q := by
  have h1 : n ≤ ⌊q⌋ := Int.le_floor.mpr h
  have h2 := floor_le_round_half_even q
  omega

theorem round_half_even_le {q : ℚ} {n : ℤ} (h : q ≤ (n : ℚ)) :
    round_half_even q ≤ n := by
  by_cases hq : ⌊q⌋ = n
  · have h1 : (n : ℚ) ≤ q := by
      rw [← hq]
      exact Int.floor_le q
    have h2 : q = (n : ℚ) := le_antisymm h h1
    rw [h2, round_half_even_intCast]
  · have h1 : ⌊q⌋ ≤ n := by
      have := Int.floor_mono h
      rwa [Int.floor_intCast] at this
    have h2 := round_half_even_le_floor_add_one q
    omega

theorem round2_mono {p q : ℚ} (h : p ≤ q) : round2 p ≤ round2 q := by
  unfold round2
  have h1 : p * 100 ≤ q * 100 := by linarith
  have h2 := round_half_even_mono h1
  have h3 : ((round_half_even (p * 100) : ℤ) : ℚ) ≤ (round_half_even (q * 100) : ℚ) :=
    Int.cast_le.mpr h2
  exact (div_le_div_iff_of_pos_right (by norm_num)).mpr h3

theorem le_round2 {q : ℚ} {n : ℤ} (h : (n : ℚ) ≤ q) : (n : ℚ) ≤ round2 q := by
  unfold round2
  have h1 : ((n * 100 : ℤ) : ℚ) ≤ q * 100 := by
    push_cast
    linarith
  have h2 : ((n * 100 : ℤ) : ℚ) ≤ (round_half_even (q * 100) : ℚ) :=
    Int.cast_le.mpr (le_round_half_even h1)
  have h3 : ((n * 100 : ℤ) : ℚ) / 100 ≤ (round_half_even (q * 100) : ℚ) / 100 :=
    (div_le_div_iff_of_pos_right (by norm_num)).mpr h2
  calc (n : ℚ) = ((n * 100 : ℤ) : ℚ) / 100 := by push_cast; ring
    _ ≤ _ := h3

theorem round2_le {q : ℚ} {n : ℤ} (h : q ≤ (n : ℚ)) : round2 q ≤ (n : ℚ) := by
  unfold round2
  have h1 : q * 100 ≤ ((n * 100 : ℤ) : ℚ) := by
    push_cast
    linarith
  have h2 : ((round_half_even (q * 100) : ℤ) : ℚ) ≤ ((n * 100 : ℤ) : ℚ) :=
    Int.cast_le.mpr (round_half_even_le h1)
  have h3 : ((round_half_even (q * 100) : ℤ) : ℚ) / 100 ≤ ((n * 100 : ℤ) : ℚ) / 100 :=
    (div_le_div_iff_of_pos_right (by norm_num)).mpr h2
  calc (round_half_even (q * 100) : ℚ) / 100 ≤ ((n * 100 : ℤ) : ℚ) / 100 := h3
    _ = (n : ℚ) := by push_cast; ring

theorem round2_intCast_div (k : ℤ) : round2 ((k : ℚ) / 100) = (k : ℚ) / 100 := by
  unfold round2
  have h1 : (k : ℚ) / 100 * 100 = (k : ℚ) := by
    field_simp
  rw [h1, round_half_even_intCast]

theorem round2_round2 (q : ℚ) : round2 (round2 q) = round2 q :=
  round2_intCast_div (round_half_even (q * 100))

theorem round2_zero : round2 0 = 0 := by
  have h := round2_intCast_div 0
  simpa using h

/-! ### Lemmas about the window and the metrics -/

theorem Time.toSec_nonneg (t : Time) : 0 ≤ t.toSec := by
  unfold Time.toSec
  positivity

theorem Time.toSec_lt (t : Time) : t.toSec < 86400 := by
  unfold Time.toSec
  have h1 := t.hour.isLt
  have h2 := t.minute.isLt
  have h3 := t.second.isLt
  omega

theorem bed_lt_wake (d : ℤ) (bt wt : Time) :
    (ensure_sleep_window d bt wt).1 < (ensure_sleep_window d bt wt).2 := by
  have hb1 := Time.toSec_nonneg bt
  have hb2 := Time.toSec_lt bt
  have hw1 := Time.toSec_nonneg wt
  have hw2 := Time.toSec_lt wt
  unfold ensure_sleep_window
  dsimp only
  split_ifs with h <;> dsimp only <;> omega

theorem time_in_bed_nonneg (d : ℤ) (bt wt : Time) :
    0 ≤ Int.tdiv ((ensure_sleep_window d bt wt).2 - (ensure_sleep_window d bt wt).1) 60 := by
  have h := bed_lt_wake d bt wt
  exact Int.tdiv_nonneg (by omega) (by norm_num)

theorem tdiv_60_eq_floor {n : ℤ} (hn : 0 ≤ n) : Int.tdiv n 60 = ⌊(n : ℚ) / 60⌋ := by
  have h2 := Rat.floor_intCast_div_natCast n 60
  norm_num at h2
  rw [Int.tdiv_eq_ediv hn (by norm_num), h2]

theorem efficiency_mem (d : ℤ) (bt wt : Time) (a : ℤ) :
    0 ≤ (compute_sleep_metrics d bt wt a).2 ∧ (compute_sleep_metrics d bt wt a).2 ≤ 100 := by
  simp only [compute_sleep_metrics]
  set T : ℤ :=
    Int.tdiv ((ensure_sleep_window d bt wt).2 - (ensure_sleep_window d bt wt).1) 60 with hT
  by_cases h : T = 0
  · simp [h]
  · simp only [h, if_false]
    set x : ℚ := 100 * ((T : ℚ) - ((max 0 a * 5 : ℤ) : ℚ)) / (T : ℚ) with hx
    constructor
    · have h0 : ((0 : ℤ) : ℚ) ≤ max 0 (min 100 x) := by
        simpa using le_max_left (0 : ℚ) (min 100 x)
      have := le_round2 h0
      simpa using this
    · have h1 : max (0 : ℚ) (min 100 x) ≤ ((100 : ℤ) : ℚ) := by
        apply max_le
        · norm_num
        · simpa using min_le_left (100 : ℚ) x
      have := round2_le h1
      simpa using this

theorem duration_nonneg (d : ℤ) (bt wt : Time) (a : ℤ) :
    0 ≤ (compute_sleep_metrics d bt wt a).1 := by
  have hT0 := time_in_bed_nonneg d bt wt
  simp only [compute_sleep_metrics]
  set T : ℤ :=
    Int.tdiv ((ensure_sleep_window d bt wt).2 - (ensure_sleep_window d bt wt).1) 60 with hT
  by_cases h : T = 0
  · simp [h]
  · simp only [h, if_false]
    have h0 : ((0 : ℤ) : ℚ) ≤ (T : ℚ) / 60 := by
      have : (0 : ℚ) ≤ (T : ℚ) := by exact_mod_cast hT0
      positivity
    have := le_round2 h0
    simpa using this

theorem round2_fix_duration (d : ℤ) (bt wt : Time) (a : ℤ) :
    round2 ((compute_sleep_metrics d bt wt a).1) = (compute_sleep_metrics d bt wt a).1 := by
  simp only [compute_sleep_metrics]
  split_ifs
  · exact round2_zero
  · exact round2_round2 _

theorem round2_fix_efficiency (d : ℤ) (bt wt : Time) (a : ℤ) :
    round2 ((compute_sleep_metrics d bt wt a).2) = (compute_sleep_metrics d bt wt a).2 := by
  simp only [compute_sleep_metrics]
  split_ifs
  · exact round2_zero
  · exact round2_round2 _

/-! ### Claim C1 -/

/-- C1 counterexample: at `record_date = 0`, `bedtime = 23:00:00`,
`wakeup_time = 23:01:36`, `awakenings = 0`, the window is 96 s = 1.6 min;
the code truncates `time_in_bed_min` to 1 (duration 0.02 h) while the spec's
`round` gives 2 (duration 0.03 h), so `compute_sleep_metrics` does not follow
the spec's algorithm with `timeInBedMinutes` ROUNDED to an integer. -/
theorem compute_sleep_metrics_ne_spec_rounded :
    compute_sleep_metrics 0 ⟨23, 0, 0⟩ ⟨23, 1, 36⟩ 0 ≠
      spec_sleep_metrics_rounded 0 ⟨23, 0, 0⟩ ⟨23, 1, 36⟩ 0 := by
  with_unfolding_all decide

/-- C1 (amended): for every record date, pair of times of day and awakenings
count ≥ 0, `compute_sleep_metrics` follows the spec's algorithm with
`timeInBedMinutes` truncated (floored) to an integer instead of rounded:
`durationHours = round(timeInBedMinutes / 60, 2)` or `0.0` when
`timeInBedMinutes == 0`; `waso = awakenings * 5` with no latency term;
`efficiencyPercent = round(clamp(100 * (timeInBedMinutes - waso)
/ timeInBedMinutes, 0, 100), 2)` or `0` when `timeInBedMinutes == 0`. -/
theorem compute_sleep_metrics_follows_spec_truncated (d : ℤ) (bt wt : Time) (a : ℕ) :
    compute_sleep_metrics d bt wt (a : ℤ) = spec_sleep_metrics_truncated d bt wt a := by
  have hd := bed_lt_wake d bt wt
  have hdiff : 0 ≤ (ensure_sleep_window d bt wt).2 - (ensure_sleep_window d bt wt).1 := by
    omega
  simp only [compute_sleep_metrics, spec_sleep_metrics_truncated, clamp]
  rw [tdiv_60_eq_floor hdiff, max_eq_right (by positivity : (0 : ℤ) ≤ (a : ℤ))]

/-! ### Claim C2 -/

/-- C2: `ensure_sleep_window` combines the date with each time of day, adds
exactly one calendar day (86400 s) to the wake timestamp if and only if the
same-day wake timestamp is ≤ the bed timestamp (in particular no roll when
the wake time is strictly after the bed time), and the returned pair always
satisfies `wakeTimestamp > bedTimestamp`; the function is total (it is a
plain function with no error case). -/
theorem ensure_sleep_window_spec (d : ℤ) (bt wt : Time) :
    (ensure_sleep_window d bt wt).1 = d * 86400 + bt.toSec ∧
    ((ensure_sleep_window d bt wt).2 = d * 86400 + wt.toSec + 86400 ↔
      d * 86400 + wt.toSec ≤ d * 86400 + bt.toSec) ∧
    (bt.toSec < wt.toSec → (ensure_sleep_window d bt wt).2 = d * 86400 + wt.toSec) ∧
    (ensure_sleep_window d bt wt).1 < (ensure_sleep_window d bt wt).2 := by
  refine ⟨?_, ?_, ?_, bed_lt_wake d bt wt⟩
  · unfold ensure_sleep_window
    dsimp only
    split_ifs <;> rfl
  · unfold ensure_sleep_window
    dsimp only
    split_ifs with h
    · exact ⟨fun _ => h, fun _ => rfl⟩
    · constructor
      · intro heq
        omega
      · intro hle
        exact absurd hle h
  · intro hlt
    unfold ensure_sleep_window
    dsimp only
    rw [if_neg (by omega)]

/-- Witness for C2 at `record_date = 0`, `bedtime = 22:00:00`,
`wakeup_time = 23:30:00` (wake strictly after bed: no day roll). -/
theorem ensure_sleep_window_spec_witness :
    (ensure_sleep_window 0 ⟨22, 0, 0⟩ ⟨23, 30, 0⟩).1 =
      0 * 86400 + Time.toSec ⟨22, 0, 0⟩ ∧
    ((ensure_sleep_window 0 ⟨22, 0, 0⟩ ⟨23, 30, 0⟩).2 =
        0 * 86400 + Time.toSec ⟨23, 30, 0⟩ + 86400 ↔
      0 * 86400 + Time.toSec ⟨23, 30, 0⟩ ≤ 0 * 86400 + Time.toSec ⟨22, 0, 0⟩) ∧
    (ensure_sleep_window 0 ⟨22, 0, 0⟩ ⟨23, 30, 0⟩).2 =
      0 * 86400 + Time.toSec ⟨23, 30, 0⟩ ∧
    (ensure_sleep_window 0 ⟨22, 0, 0⟩ ⟨23, 30, 0⟩).1 <
      (ensure_sleep_window 0 ⟨22, 0, 0⟩ ⟨23, 30, 0⟩).2 :=
  ⟨(ensure_sleep_window_spec 0 ⟨22, 0, 0⟩ ⟨23, 30, 0⟩).1,
   (ensure_sleep_window_spec 0 ⟨22, 0, 0⟩ ⟨23, 30, 0⟩).2.1,
   (ensure_sleep_window_spec 0 ⟨22, 0, 0⟩ ⟨23, 30, 0⟩).2.2.1 (by decide),
   (ensure_sleep_window_spec 0 ⟨22, 0, 0⟩ ⟨23, 30, 0⟩).2.2.2⟩

/-! ### Claims C6, C7, C10 -/

/-- C6: for every input — including awakenings counts outside [0, 20] —
the efficiency returned by `compute_sleep_metrics` lies in [0, 100] and the
duration returned is ≥ 0. -/
theorem compute_sleep_metrics_bounds (d : ℤ) (bt wt : Time) (a : ℤ) :
    0 ≤ (compute_sleep_metrics d bt wt a).2 ∧
    (compute_sleep_metrics d bt wt a).2 ≤ 100 ∧
    0 ≤ (compute_sleep_metrics d bt wt a).1 :=
  ⟨(efficiency_mem d bt wt a).1, (efficiency_mem d bt wt a).2, duration_nonneg d bt wt a⟩

/-- C7: for a fixed window and awakenings counts `a ≤ a'` both in [0, 20],
the efficiency computed with `a'` awakenings is ≤ the efficiency computed
with `a` awakenings. -/
theorem efficiency_antitone (d : ℤ) (bt wt : Time) (a a' : ℤ)
    (h0 : 0 ≤ a) (h1 : a ≤ a') (h2 : a' ≤ 20) :
    (compute_sleep_metrics d bt wt a').2 ≤ (compute_sleep_metrics d bt wt a).2 := by
  have hT0 := time_in_bed_nonneg d bt wt
  simp only [compute_sleep_metrics]
  set T : ℤ :=
    Int.tdiv ((ensure_sleep_window d bt wt).2 - (ensure_sleep_window d bt wt).1) 60 with hT
  by_cases h : T = 0
  · simp [h]
  · simp only [h, if_false]
    apply round2_mono
    apply max_le_max (le_refl (0 : ℚ))
    apply min_le_min (le_refl (100 : ℚ))
    have hTpos : (0 : ℚ) < (T : ℚ) := by
      have : (0 : ℤ) < T := by omega
      exact_mod_cast this
    apply (div_le_div_iff_of_pos_right hTpos).mpr
    have hw : max 0 a * 5 ≤ max 0 a' * 5 :=
      mul_le_mul_of_nonneg_right (max_le_max (le_refl 0) h1) (by norm_num)
    have hw2 : ((max 0 a * 5 : ℤ) : ℚ) ≤ ((max 0 a' * 5 : ℤ) : ℚ) := Int.cast_le.mpr hw
    linarith

/-- Witness for C7: awakenings 2 ≤ 3 over the 23:00 → 07:00 window. -/
theorem efficiency_antitone_witness :
    (compute_sleep_metrics 0 ⟨23, 0, 0⟩ ⟨7, 0, 0⟩ 3).2 ≤
      (compute_sleep_metrics 0 ⟨23, 0, 0⟩ ⟨7, 0, 0⟩ 2).2 :=
  efficiency_antitone 0 ⟨23, 0, 0⟩ ⟨7, 0, 0⟩ 2 3 (by decide) (by decide) (by decide)

/-- C10: the efficiency-out-of-range branch of `_calculate_metrics` is
unreachable: `compute_sleep_metrics` always returns an efficiency in
[0, 100], so the efficiency `HTTPException` is never raised. -/
theorem calculate_metrics_no_efficiency_error (d : ℤ) (bt wt : Time) (a : ℤ) :
    raised_efficiency_error (calculate_metrics d bt wt a) = false := by
  have h := efficiency_mem d bt wt a
  simp only [calculate_metrics]
  by_cases h1 : 2 ≤ (compute_sleep_metrics d bt wt a).1 ∧
      (compute_sleep_metrics d bt wt a).1 ≤ 14
  · rw [if_pos h1, if_pos ⟨h.1, h.2⟩]
    rfl
  · rw [if_neg h1]
    rfl

/-! ### Inversion of a successful `SleepRecordBase` validation -/

theorem validate_ok_inv {today : ℤ} {p : SleepRecordPayload} {r : SleepRecord}
    (h : validateSleepRecord today p = .ok r) :
    r.subject_id = p.subject_id ∧
    r.record_date = p.record_date ∧
    r.bedtime = p.bedtime ∧
    r.wakeup_time = p.wakeup_time ∧
    r.awakenings = p.awakenings ∧
    p.record_date ≤ today ∧
    (0 ≤ p.awakenings ∧ p.awakenings ≤ 20) ∧
    (∀ v ∈ p.sleep_duration, 2 ≤ v ∧ v ≤ 14) ∧
    (2 ≤ (compute_sleep_metrics p.record_date p.bedtime p.wakeup_time p.awakenings).1 ∧
      (compute_sleep_metrics p.record_date p.bedtime p.wakeup_time p.awakenings).1 ≤ 14) ∧
    r.sleep_duration =
      round2 (compute_sleep_metrics p.record_date p.bedtime p.wakeup_time p.awakenings).1 ∧
    ((p.sleep_efficiency = none ∧
        r.sleep_efficiency =
          round2 (compute_sleep_metrics p.record_date p.bedtime p.wakeup_time p.awakenings).2) ∨
      (∃ e, p.sleep_efficiency = some e ∧ r.sleep_efficiency = round2 (round2 e))) := by
  rcases hd : p.sleep_duration with _ | dv <;>
    rcases he : p.sleep_efficiency with _ | ev <;>
    simp only [validateSleepRecord, v_date, v_duration, v_efficiency, v_awakenings,
      hd, he] at h
  all_goals try (split_ifs at h)
  all_goals try (dsimp only at h)
  all_goals try (split_ifs at h)
  all_goals try (exact Except.noConfusion h)
  all_goals rw [Except.ok.injEq] at h
  all_goals subst h
  all_goals
    refine ⟨rfl, rfl, rfl, rfl, rfl, by omega, by assumption, ?_, by assumption, rfl, ?_⟩
  all_goals try (simp; done)
  all_goals try (intro v hv; simp at hv; subst hv; assumption)

/-! ### Claim C3 -/

/-- C3: for every successfully validated sleep-record payload, recomputing
`compute_sleep_metrics` on the stored `(record_date, bedtime, wakeup_time,
awakenings)` reproduces the stored `(sleep_duration, sleep_efficiency)`
exactly — the stored values are always the computed ones, never a raw
caller-supplied override — except that a caller-supplied `sleep_efficiency`,
when present, is stored (rounded to 2 decimals) in place of the computed one. -/
theorem validated_record_roundtrip (today : ℤ) (p : SleepRecordPayload) (r : SleepRecord)
    (h : validateSleepRecord today p = .ok r) :
    (compute_sleep_metrics r.record_date r.bedtime r.wakeup_time r.awakenings).1 =
      r.sleep_duration ∧
    (p.sleep_efficiency = none →
      (compute_sleep_metrics r.record_date r.bedtime r.wakeup_time r.awakenings).2 =
        r.sleep_efficiency) ∧
    (∀ e, p.sleep_efficiency = some e → r.sleep_efficiency = round2 e) := by
  obtain ⟨_, h2, h3, h4, h5, _, _, _, _, h10, h11⟩ := validate_ok_inv h
  rw [h2, h3, h4, h5]
  refine ⟨?_, ?_, ?_⟩
  · rw [h10, round2_fix_duration]
  · intro hnone
    rcases h11 with ⟨_, heq⟩ | ⟨e, hsome, _⟩
    · rw [heq, round2_fix_efficiency]
    · rw [hnone] at hsome
      exact Option.noConfusion hsome
  · intro e hsome
    rcases h11 with ⟨hnone, _⟩ | ⟨e', hsome', heq⟩
    · rw [hnone] at hsome
      exact Option.noConfusion hsome
    · rw [hsome] at hsome'
      obtain rfl : e' = e := by
        exact (Option.some.injEq _ _).mp hsome'.symm
      rw [heq, round2_round2]

/-- Witness for C3: a payload with no supplied efficiency (stored metrics are
the recomputed ones) and a payload with supplied efficiency 90 (stored
efficiency is the supplied one). -/
theorem validated_record_roundtrip_witness :
    (compute_sleep_metrics
        (SleepRecord.mk 1 0 ⟨23, 0, 0⟩ ⟨7, 0, 0⟩ 8 (9792/100) 2).record_date
        (SleepRecord.mk 1 0 ⟨23, 0, 0⟩ ⟨7, 0, 0⟩ 8 (9792/100) 2).bedtime
        (SleepRecord.mk 1 0 ⟨23, 0, 0⟩ ⟨7, 0, 0⟩ 8 (9792/100) 2).wakeup_time
        (SleepRecord.mk 1 0 ⟨23, 0, 0⟩ ⟨7, 0, 0⟩ 8 (9792/100) 2).awakenings).2 =
      (SleepRecord.mk 1 0 ⟨23, 0, 0⟩ ⟨7, 0, 0⟩ 8 (9792/100) 2).sleep_efficiency ∧
    (SleepRecord.mk 1 0 ⟨23, 0, 0⟩ ⟨7, 0, 0⟩ 8 90 2).sleep_efficiency = round2 90 :=
  ⟨(validated_record_roundtrip 0
      (SleepRecordPayload.mk 1 0 ⟨23, 0, 0⟩ ⟨7, 0, 0⟩ none none 2)
      (SleepRecord.mk 1 0 ⟨23, 0, 0⟩ ⟨7, 0, 0⟩ 8 (9792/100) 2)
      (by with_unfolding_all rfl)).2.1 rfl,
   (validated_record_roundtrip 0
      (SleepRecordPayload.mk 1 0 ⟨23, 0, 0⟩ ⟨7, 0, 0⟩ none (some 90) 2)
      (SleepRecord.mk 1 0 ⟨23, 0, 0⟩ ⟨7, 0, 0⟩ 8 90 2)
      (by with_unfolding_all rfl)).2.2 90 rfl⟩

/-! ### Claim C4 -/

/-- C4: validation rejects — with a validation error, never by clamping —
every input whose computed duration lies outside [2, 14] hours, likewise
every input whose caller-supplied `sleep_duration` lies outside [2, 14],
and no validated record ever carries a `sleep_duration` outside [2, 14]. -/
theorem duration_range_enforced (today : ℤ) (p : SleepRecordPayload) (r : SleepRecord) :
    (validateSleepRecord today p = .ok r →
      2 ≤ r.sleep_duration ∧ r.sleep_duration ≤ 14) ∧
    (¬(2 ≤ (compute_sleep_metrics p.record_date p.bedtime p.wakeup_time p.awakenings).1 ∧
        (compute_sleep_metrics p.record_date p.bedtime p.wakeup_time p.awakenings).1 ≤ 14) →
      (validateSleepRecord today p).isOk = false) ∧
    (∀ v, p.sleep_duration = some v → ¬(2 ≤ v ∧ v ≤ 14) →
      (validateSleepRecord today p).isOk = false) := by
  refine ⟨?_, ?_, ?_⟩
  · intro h
    obtain ⟨_, _, _, _, _, _, _, _, h9, h10, _⟩ := validate_ok_inv h
    rw [h10]
    constructor
    · have h2 : ((2 : ℤ) : ℚ) ≤
          (compute_sleep_metrics p.record_date p.bedtime p.wakeup_time p.awakenings).1 := by
        exact_mod_cast h9.1
      have := le_round2 h2
      exact_mod_cast this
    · have h14 : (compute_sleep_metrics p.record_date p.bedtime p.wakeup_time p.awakenings).1 ≤
          ((14 : ℤ) : ℚ) := by
        exact_mod_cast h9.2
      have := round2_le h14
      exact_mod_cast this
  · intro hbad
    cases hv : validateSleepRecord today p with
    | error e => rfl
    | ok r' => exact absurd (validate_ok_inv hv).2.2.2.2.2.2.2.2.1 hbad
  · intro v hsome hbad
    cases hv : validateSleepRecord today p with
    | error e => rfl
    | ok r' =>
      exact absurd ((validate_ok_inv hv).2.2.2.2.2.2.2.1 v hsome) hbad

/-- Witness for C4: an accepted 23:00 → 07:00 payload (stored duration in
range), a 23:00 → 23:30 payload whose computed duration 0.5 h is rejected,
and a payload with supplied `sleep_duration = 1.5` h, also rejected. -/
theorem duration_range_enforced_witness :
    (2 ≤ (SleepRecord.mk 1 0 ⟨23, 0, 0⟩ ⟨7, 0, 0⟩ 8 (9792/100) 2).sleep_duration ∧
      (SleepRecord.mk 1 0 ⟨23, 0, 0⟩ ⟨7, 0, 0⟩ 8 (9792/100) 2).sleep_duration ≤ 14) ∧
    (validateSleepRecord 0
        (SleepRecordPayload.mk 1 0 ⟨23, 0, 0⟩ ⟨23, 30, 0⟩ none none 0)).isOk = false ∧
    (validateSleepRecord 0
        (SleepRecordPayload.mk 1 0 ⟨23, 0, 0⟩ ⟨7, 0, 0⟩ (some (3/2)) none 2)).isOk = false :=
  ⟨(duration_range_enforced 0
      (SleepRecordPayload.mk 1 0 ⟨23, 0, 0⟩ ⟨7, 0, 0⟩ none none 2)
      (SleepRecord.mk 1 0 ⟨23, 0, 0⟩ ⟨7, 0, 0⟩ 8 (9792/100) 2)).1
      (by with_unfolding_all rfl),
   (duration_range_enforced 0
      (SleepRecordPayload.mk 1 0 ⟨23, 0, 0⟩ ⟨23, 30, 0⟩ none none 0)
      (SleepRecord.mk 1 0 ⟨23, 0, 0⟩ ⟨7, 0, 0⟩ 8 (9792/100) 2)).2.1
      (by with_unfolding_all decide),
   (duration_range_enforced 0
      (SleepRecordPayload.mk 1 0 ⟨23, 0, 0⟩ ⟨7, 0, 0⟩ (some (3/2)) none 2)
      (SleepRecord.mk 1 0 ⟨23, 0, 0⟩ ⟨7, 0, 0⟩ 8 (9792/100) 2)).2.2 (3/2) rfl
      (by with_unfolding_all decide)⟩

/-! ### Claim C5 -/

/-- C5: validation fails with the future-date error for every payload whose
record date is strictly after today, and the date rule `v_date` accepts
exactly the record dates ≤ today. -/
theorem future_date_rejected (today : ℤ) (p : SleepRecordPayload) (d : ℤ) :
    (today < p.record_date → validateSleepRecord today p = .error .futureDate) ∧
    (v_date today d = .ok d ↔ d ≤ today) := by
  constructor
  · intro h
    simp [validateSleepRecord, v_date, h]
  · constructor
    · intro hok
      by_contra hgt
      rw [v_date, if_pos (by omega)] at hok
      exact Except.noConfusion hok
    · intro hle
      rw [v_date, if_neg (by omega)]

/-- Witness for C5: a record dated tomorrow (day 1, today = day 0) is
rejected as future-dated; day 0 itself passes the date rule. -/
theorem future_date_rejected_witness :
    validateSleepRecord 0
        (SleepRecordPayload.mk 1 1 ⟨23, 0, 0⟩ ⟨7, 0, 0⟩ none none 2) =
      .error .futureDate ∧
    v_date 0 0 = .ok 0 :=
  ⟨(future_date_rejected 0
      (SleepRecordPayload.mk 1 1 ⟨23, 0, 0⟩ ⟨7, 0, 0⟩ none none 2) 0).1 (by decide),
   (future_date_rejected 0
      (SleepRecordPayload.mk 1 1 ⟨23, 0, 0⟩ ⟨7, 0, 0⟩ none none 2) 0).2.mpr (by decide)⟩

/-! ### Claim C8 -/

theorem name_re_match_iff (l : List Char) :
    name_re_match l = true ↔
      2 ≤ l.length ∧ l.length ≤ 50 ∧ ∀ c ∈ l, nameChar c = true := by
  unfold name_re_match
  simp [List.all_eq_true, and_assoc]

/-- C8: `v_name` first collapses internal whitespace runs to single spaces
and trims the ends, then accepts exactly when the cleaned string matches the
letters-plus-accents-apostrophe-hyphen-space pattern of length 2 to 50,
returning the cleaned string; in particular `"  Ana   María  "` is accepted
as `"Ana María"` and `"Ana123"` is rejected. -/
theorem v_name_spec (s t : String) :
    ((v_name s).isSome ↔
      2 ≤ (cleaned_name s).data.length ∧ (cleaned_name s).data.length ≤ 50 ∧
        ∀ c ∈ (cleaned_name s).data, nameChar c = true) ∧
    (v_name s = some t → t = cleaned_name s) ∧
    v_name ("  Ana   María  ") = some ("Ana María") ∧
    v_name ("Ana123") = none := by
  refine ⟨?_, ?_, ?_, ?_⟩
  · unfold v_name
    dsimp only
    split_ifs with h
    · simpa using (name_re_match_iff _).mp h
    · simp only [Option.isSome_none, Bool.false_eq_true, false_iff]
      intro hc
      exact absurd ((name_re_match_iff _).mpr ⟨hc.1, hc.2.1, hc.2.2⟩) h
  · unfold v_name
    dsimp only
    split_ifs with h
    · intro he
      exact ((Option.some.injEq _ _).mp he).symm
    · intro he
      exact he.elim
  · decide
  · decide

/-- Witness for C8: an accepted name returns its own cleaned form. -/
theorem v_name_spec_witness : ("Ana") = cleaned_name ("Ana") :=
  (v_name_spec ("Ana") ("Ana")).2.1 (by decide)

/-! ### Claim C9 -/

/-- C9: subject input validation (`v_gender`) trims and upper-cases the
gender and succeeds — returning the normalized value — exactly when the
result is one of `{M, F, O}`, rejecting anything else; the reporting/display
paths (`_normalize_subject`, the reports `gender_group` expression) instead
silently map any value whose trimmed upper-case form is not in `{M, F, O}`
to `"O"`. -/
theorem v_gender_spec (g : String) :
    ((v_gender g).isSome ↔ strip_upper g ∈ genderSet) ∧
    (v_gender g = some (strip_upper g) ∨ v_gender g = none) ∧
    (normalize_subject_gender g =
      if strip_upper g ∈ genderSet then strip_upper g else "O") ∧
    (gender_group g =
      if String.mk ((sqlTrim g.data).map pyUpperChar) ∈ genderSet
        then String.mk ((sqlTrim g.data).map pyUpperChar) else "O") ∧
    v_gender (" f ") = some ("F") ∧
    v_gender ("x") = none ∧
    normalize_subject_gender ("x") = "O" ∧
    gender_group (" male") = "O" := by
  refine ⟨?_, ?_, rfl, rfl, by decide, by decide, by decide, by decide⟩
  · unfold v_gender
    dsimp only
    split_ifs with h <;> simp [h]
  · unfold v_gender
    dsimp only
    split_ifs with h
    · exact Or.inl rfl
    · exact Or.inr rfl

end SleepHabits
